import Mathlib

/-!
Formal model of the documentation-quality scoring engine of the
github-repo-scraper repository, together with theorems settling the
specification claims about it.  The definitions below are shallow
embeddings of `src/api_client.py` (section taxonomy, markdown header
parsing, comment-ratio estimation, markdown inventory scan,
documentation-quality scorer and its degraded failure form) and of
`src/scraper.py` (`_should_include_repo`).  Python floats are modelled
as exact rationals, Python exceptions as `Except Unit`, and network
responses as explicit outcome values.  Human-readable log strings that
no logic depends on (the per-category `criteria` lists) are elided;
numeric string formatting (`%.1f`) is modelled exactly on rationals.
-/

attribute [local semireducible] Rat.mul Rat.add Rat.sub Rat.inv

deriving instance DecidableEq for Except

/-! Character and string utilities mirroring the Python `str` methods
used by the source: `lower`, `strip`, `split`, `startswith`,
`endswith`, substring containment and whitespace tokenisation.  All of
them are written over `List Char` so that concrete evaluation reduces
in the kernel. -/

def wsChar (c : Char) : Bool :=
  c == ' ' || c == '\t' || c == '\n' || c == '\r' || c == '\x0b' || c == '\x0c'

def lowerChar (c : Char) : Char :=
  if c.toNat ≥ 65 && c.toNat ≤ 90 then Char.ofNat (c.toNat + 32) else c

def strLower (s : String) : String := ⟨s.data.map lowerChar⟩

def trimList (l : List Char) : List Char :=
  ((l.dropWhile wsChar).reverse.dropWhile wsChar).reverse

def strTrim (s : String) : String := ⟨trimList s.data⟩

def splitCharAux (sep : Char) : List Char → List Char → List (List Char)
  | [], cur => [cur.reverse]
  | c :: rest, cur =>
    if c == sep then cur.reverse :: splitCharAux sep rest []
    else splitCharAux sep rest (c :: cur)

def splitLines (s : String) : List String :=
  (splitCharAux '\n' s.data []).map (fun l => ⟨l⟩)

def splitOnDoubleQuote (s : String) : List String :=
  (splitCharAux '"' s.data []).map (fun l => ⟨l⟩)

def headOfList : List Char → List Char → Bool
  | [], _ => true
  | _ :: _, [] => false
  | a :: as, b :: bs => a == b && headOfList as bs

def occursIn (pat : List Char) : List Char → Bool
  | [] => pat.isEmpty
  | s :: rest => headOfList pat (s :: rest) || occursIn pat rest

def strStarts (s pre : String) : Bool := headOfList pre.data s.data

def strEnds (s suffix : String) : Bool :=
  headOfList suffix.data.reverse s.data.reverse

def tokenCount : List Char → Bool → Nat
  | [], _ => 0
  | c :: rest, inTok =>
    if wsChar c then tokenCount rest false
    else (if inTok then 0 else 1) + tokenCount rest true

def countWords (s : String) : Nat := tokenCount s.data false

def joinCommaSpace : List String → String
  | [] => ""
  | [x] => x
  | x :: rest => x ++ ", " ++ joinCommaSpace rest

def singleQuoteChar : Char := Char.ofNat 39

def tripleSingleQuote : String := ⟨[singleQuoteChar, singleQuoteChar, singleQuoteChar]⟩

def tripleDoubleQuote : String := "\"\"\""

/-! Python `set` values are modelled as lists with first-occurrence
deduplication; only membership and cardinality of these sets are ever
observed by the program logic, so the iteration order chosen here is a
deterministic stand-in for Python's unspecified set order. -/

def distinctList (l : List String) : List String :=
  l.foldl (fun acc t => if acc.contains t then acc else acc ++ [t]) []

def listUnion (a b : List String) : List String :=
  b.foldl (fun acc t => if acc.contains t then acc else acc ++ [t]) a

/-! Section taxonomy: `SECTION_GROUPS` from `api_client.py`, an ordered
mapping (Python dict literal, insertion order) from canonical key to
display title and synonym set. -/

structure SectionGroup where
  key : String
  title : String
  synonyms : List String
deriving DecidableEq

def SECTION_GROUPS : List SectionGroup := [
  { key := "setup", title := "Setup/Installation",
    synonyms := ["setup", "installation", "getting started", "quickstart", "quick start", "initialize", "configuration", "config"] },
  { key := "usage", title := "Usage/Examples",
    synonyms := ["usage", "examples", "example", "how to use", "demo", "demonstration", "tutorial"] },
  { key := "api", title := "API Documentation",
    synonyms := ["api", "documentation", "reference", "interfaces"] },
  { key := "contributing", title := "Contributing",
    synonyms := ["contributing", "development", "developing", "developers", "maintainers", "guidelines", "contribute"] },
  { key := "requirements", title := "Requirements",
    synonyms := ["requirements", "prerequisites", "dependencies", "environment"] },
  { key := "testing", title := "Testing",
    synonyms := ["testing", "tests", "running tests"] },
  { key := "build", title := "Build/Deploy",
    synonyms := ["build", "building", "deploy", "deployment", "installation"] },
  { key := "configuration", title := "Configuration",
    synonyms := ["config", "configuration", "settings", "options", "parameters"] },
  { key := "troubleshooting", title := "Troubleshooting",
    synonyms := ["troubleshooting", "debugging", "faq", "common issues", "known issues", "problems", "errors", "fixes", "solutions", "issues", "help", "support", "troubleshoot", "workarounds", "resolutions", "bugs"] },
  { key := "support", title := "Support",
    synonyms := ["support", "help", "contact", "community", "feedback", "suggestions", "need help", "report issue", "get in touch", "contact us"] },
  { key := "license", title := "License",
    synonyms := ["license", "licensing", "copyright"] },
  { key := "about", title := "About",
    synonyms := ["about", "introduction", "overview", "summary", "description", "details", "what it does", "what it is", "what is included"] },
  { key := "features", title := "Features",
    synonyms := ["features", "capabilities", "functionality", "highlights", "overview", "scope", "objectives", "goals", "summary", "description", "details", "what it does", "what it is", "what is included"] }]

def allSectionTitles : List String := SECTION_GROUPS.map (fun g => g.title)

/-- Model of `_categorize_sections`: each header is lower-cased and
counted under the first taxonomy entry (in `SECTION_GROUPS` order)
whose synonym set contains it verbatim; the result is the insertion
ordered key list of the Python `found_sections` dict. -/
def categorizeSections (headers : List String) : List String :=
  headers.foldl (fun acc header =>
    match SECTION_GROUPS.find? (fun g => g.synonyms.contains (strLower header)) with
    | some g => if acc.contains g.title then acc else acc ++ [g.title]
    | none => acc) []

/-! Markdown header extraction, model of `_parse_markdown_headers`.
A line matches the hash pattern iff it starts with at least one `#`
(seven or more hashes still match, leaving the extra hashes in the
captured text, exactly as the regex does); the captured text is the
line minus at most six leading hashes, whitespace-trimmed and
lower-cased.  An underline header is a line of one or more `=` or `-`
characters followed only by whitespace, which promotes the previous
line (lower-cased, untrimmed) to a header. -/

def isHashLine (line : String) : Bool :=
  match line.data with
  | [] => false
  | c :: _ => c == '#'

def dropLeadingHashes : Nat → List Char → List Char
  | 0, l => l
  | _ + 1, [] => []
  | n + 1, c :: rest => if c == '#' then dropLeadingHashes n rest else c :: rest

def hashHeaderText (line : String) : String :=
  strLower (strTrim ⟨dropLeadingHashes 6 line.data⟩)

def isUnderlineLine (line : String) : Bool :=
  let run := line.data.takeWhile (fun c => c == '=' || c == '-')
  !run.isEmpty && (line.data.dropWhile (fun c => c == '=' || c == '-')).all wsChar

def parseHeadersFrom (prev : Option String) : List String → List String
  | [] => []
  | line :: rest =>
    (if isHashLine line then [hashHeaderText line]
     else
       match prev with
       | some p => if isUnderlineLine line then [strLower p] else []
       | none => []) ++ parseHeadersFrom (some line) rest

def parseMarkdownHeaders (content : String) : List String :=
  parseHeadersFrom none (splitLines content)

/-! Comment-ratio estimation, model of `_calculate_comment_ratio`.
Network interaction is abstracted into explicit outcomes: a request
either yields a decodable 200 response, a non-200 status (no
exception), a 200 response whose body fails to decode (an exception in
the Python code), or raises a request exception. -/

inductive FetchResult where
  | success (content : String)
  | status (code : Nat)
  | badBody
  | netError
deriving DecidableEq

structure TreeEntry where
  path : String
  typ : String
  url : String
deriving DecidableEq

structure CommentPatterns where
  single_line : List String
  multi_line : List String
  inline : List String
  documentation : Option (List String)
deriving DecidableEq

def file_extensions : List (String × String) := [
  ("Python", ".py"), ("JavaScript", ".js"), ("Java", ".java"),
  ("Swift", ".swift"), ("TypeScript", ".ts"), ("C#", ".cs"),
  ("C++", ".cpp"), ("Ruby", ".rb"), ("Go", ".go")]

def comment_patterns : List (String × CommentPatterns) := [
  ("Python", { single_line := ["#"], multi_line := [tripleSingleQuote, tripleDoubleQuote], inline := ["#"], documentation := none }),
  ("JavaScript", { single_line := ["//"], multi_line := ["/*", "*/"], inline := ["//", "/*"], documentation := none }),
  ("Java", { single_line := ["//"], multi_line := ["/*", "*/"], inline := ["//", "/*"], documentation := none }),
  ("Swift", { single_line := ["//"], multi_line := ["/*", "*/"], inline := ["//", "/*"], documentation := some ["///"] }),
  ("TypeScript", { single_line := ["//"], multi_line := ["/*", "*/"], inline := ["//", "/*"], documentation := some ["///"] }),
  ("C#", { single_line := ["//"], multi_line := ["/*", "*/"], inline := ["//", "/*"], documentation := some ["///"] }),
  ("C++", { single_line := ["//"], multi_line := ["/*", "*/"], inline := ["//", "/*"], documentation := some ["///"] }),
  ("Ruby", { single_line := ["#"], multi_line := ["=begin", "=end"], inline := ["#"], documentation := some ["##"] }),
  ("Go", { single_line := ["//"], multi_line := ["/*", "*/"], inline := ["//"], documentation := some ["///"] })]

def genericPatterns : CommentPatterns :=
  { single_line := ["#", "//"],
    multi_line := ["/*", "*/", tripleSingleQuote, tripleDoubleQuote],
    inline := ["#", "//"],
    documentation := none }

/-- Model of the multi-line marker loop: for each marker contained in
the stripped line, a marker equal to the open set opens the state; the
close branch is an `elif` of the same three-way test, so it can fire
only for the one marker (the C-style terminator) not caught by the
open test, and it breaks the loop reporting the line as a comment. -/
def multiLineScan (stripped : String) : List String → Bool → Bool × Bool
  | [], inml => (inml, false)
  | m :: ms, inml =>
    if occursIn m.data stripped.data then
      if m == "/*" || m == tripleSingleQuote || m == tripleDoubleQuote then
        multiLineScan stripped ms true
      else if m == "*/" || m == tripleSingleQuote || m == tripleDoubleQuote then
        (false, true)
      else multiLineScan stripped ms inml
    else multiLineScan stripped ms inml

def evenIndexElems {α : Type} (l : List α) : List α :=
  (l.enum.filter (fun p => p.1 % 2 == 0)).map Prod.snd

/-- Per-line classification of a stripped, non-blank line: multi-line
marker scan, then the open-state check, then single-line prefixes,
documentation prefixes, and inline markers restricted to even-indexed
segments of the line split on double quotes.  Returns the new
multi-line state and whether the line counts as a comment. -/
def processLine (p : CommentPatterns) (inml : Bool) (stripped : String) : Bool × Bool :=
  let ms := multiLineScan stripped p.multi_line inml
  let isComment1 := ms.2 || ms.1
  let isComment2 := isComment1 || p.single_line.any (fun m => strStarts stripped m)
  let isComment3 := isComment2 ||
    (match p.documentation with
     | some docMarkers => docMarkers.any (fun m => strStarts stripped m)
     | none => false)
  let parts := splitOnDoubleQuote stripped
  let isComment4 := isComment3 ||
    p.inline.any (fun m => (evenIndexElems parts).any (fun seg => occursIn m.data seg.data))
  (ms.1, isComment4)

structure RatioState where
  total : Nat
  comments : Nat
  inml : Bool
deriving DecidableEq

def processLines (p : CommentPatterns) : RatioState → List String → RatioState
  | st, [] => st
  | st, line :: rest =>
    let stripped := strTrim line
    if stripped = "" then
      processLines p { st with total := st.total - 1 } rest
    else
      let r := processLine p st.inml stripped
      processLines p
        { st with comments := st.comments + (if r.2 then 1 else 0), inml := r.1 } rest

def processFileContent (p : CommentPatterns) (st : RatioState) (content : String) : RatioState :=
  let lines := splitLines content
  processLines p { st with total := st.total + lines.length } lines

def ratioStep (patterns : CommentPatterns) (fetch : String → FetchResult)
    (st : RatioState) (f : TreeEntry) : Except Unit RatioState :=
  match fetch f.url with
  | FetchResult.success content => Except.ok (processFileContent patterns st content)
  | FetchResult.status _ => Except.ok st
  | FetchResult.badBody => Except.error ()
  | FetchResult.netError => Except.error ()

/-- Body of `_calculate_comment_ratio` after the two preliminary
requests: extension lookup (returning 0 immediately when the dominant
language has no extension mapping), sampling of at most five blobs
with the matching extension, pattern lookup with the generic fallback,
and the line classification fold whose multi-line state is initialised
once, before the file loop. -/
def calculateCommentRatioBody (language : String) (entries : List TreeEntry)
    (fetch : String → FetchResult) : Except Unit ℚ :=
  match (file_extensions.find? (fun e => e.1 == language)).map Prod.snd with
  | none => Except.ok 0
  | some ext =>
    let sourceFiles := (entries.filter (fun f => f.typ == "blob" && strEnds f.path ext)).take 5
    let patterns := ((comment_patterns.find? (fun e => e.1 == language)).map Prod.snd).getD genericPatterns
    (sourceFiles.foldlM (ratioStep patterns fetch) { total := 0, comments := 0, inml := false }).map
      (fun st => if 0 < st.total then (st.comments : ℚ) / (st.total : ℚ) * 100 else 0)

/-- Model of `_calculate_comment_ratio`: the surrounding try/except
converts any failure (repository-info request, tree request, or a file
request/decode exception) into a 0 ratio. -/
def calculateCommentRatio (language : String) (repoInfo : Except Unit String)
    (tree : Except Unit (List TreeEntry)) (fetch : String → FetchResult) : ℚ :=
  match repoInfo, tree with
  | Except.ok _, Except.ok entries =>
    (match calculateCommentRatioBody language entries fetch with
     | Except.ok r => r
     | Except.error _ => 0)
  | _, _ => 0

/-! Markdown inventory scan, model of `_scan_markdown_files`. -/

structure MarkdownInventory where
  count : Nat
  total_words : Nat
  sections_found : List String
deriving DecidableEq

def markdownFilesOf (entries : List TreeEntry) : List TreeEntry :=
  entries.filter (fun f =>
    f.typ == "blob" && (strEnds (strLower f.path) ".md" || strEnds (strLower f.path) ".markdown"))

def mdStep (fetch : String → FetchResult) (acc : Nat × List String)
    (f : TreeEntry) : Except Unit (Nat × List String) :=
  match fetch f.url with
  | FetchResult.success content =>
    Except.ok (acc.1 + countWords content,
      listUnion acc.2 (categorizeSections (parseMarkdownHeaders content)))
  | FetchResult.status _ => Except.ok acc
  | FetchResult.badBody => Except.error ()
  | FetchResult.netError => Except.error ()

def mdAccum (fetch : String → FetchResult) (files : List TreeEntry)
    (acc : Nat × List String) : Nat × List String :=
  files.foldl (fun acc f =>
    match fetch f.url with
    | FetchResult.success content =>
      (acc.1 + countWords content,
       listUnion acc.2 (categorizeSections (parseMarkdownHeaders content)))
    | _ => acc) acc

/-- Model of `_scan_markdown_files`: the `count` field counts every
markdown blob in the tree (even ones whose fetch was skipped); a file
request returning a non-200 status is skipped silently, while a raised
request exception or a body decode failure escapes the file loop and is
caught by the surrounding try/except, which yields the empty
inventory. -/
def scanMarkdownFiles (tree : Except Unit (List TreeEntry))
    (fetch : String → FetchResult) : MarkdownInventory :=
  match tree with
  | Except.error _ => { count := 0, total_words := 0, sections_found := [] }
  | Except.ok entries =>
    let files := markdownFilesOf entries
    match files.foldlM (mdStep fetch) ((0 : Nat), ([] : List String)) with
    | Except.ok acc => { count := files.length, total_words := acc.1, sections_found := acc.2 }
    | Except.error _ => { count := 0, total_words := 0, sections_found := [] }

/-! Documentation-quality scorer, model of the scoring portion of
`_get_repo_documentation_stats`. -/

structure ScoreThreshold where
  enabled : Bool
  min : Option ℤ
  max : Option ℤ
deriving DecidableEq

structure MarkdownScoring where
  enabled : Bool
  weight : ℚ
  min_files : Nat
deriving DecidableEq

structure DocFilterConfig where
  enabled : Bool
  min_readme_words : Nat
  min_code_comment_ratio : ℚ
  require_docs_folder : Bool
  docs_folder_patterns : List String
  score_threshold : ScoreThreshold
  markdown_scoring : MarkdownScoring
deriving DecidableEq

structure ScoringBreakdown where
  readme : ℚ
  docs_folder : ℚ
  code_comments : ℚ
  readme_sections : ℚ
  markdown_files : Option ℚ
deriving DecidableEq

def sumBreakdown (b : ScoringBreakdown) : ℚ :=
  b.readme + b.docs_folder + b.code_comments + b.readme_sections + b.markdown_files.getD 0

structure DocQuality where
  score : ℤ
  assessment : String
  issues : List String
  suggestions : List String
  breakdown : Option ScoringBreakdown
deriving DecidableEq

/-- Python `round` on an exact rational: round half to even. -/
def pyRound (q : ℚ) : ℤ :=
  if q - (⌊q⌋ : ℚ) < 1 / 2 then ⌊q⌋
  else if 1 / 2 < q - (⌊q⌋ : ℚ) then ⌊q⌋ + 1
  else if ⌊q⌋ % 2 = 0 then ⌊q⌋ else ⌊q⌋ + 1

/-- One-decimal rendering of a rational, the model of Python `%.1f`
formatting used inside issue and suggestion strings. -/
def fmtDec1 (q : ℚ) : String :=
  let scaled := pyRound (q * 10)
  let n := scaled.natAbs
  let core := toString (n / 10) ++ "." ++ toString (n % 10)
  if scaled < 0 then "-" ++ core else core

/-- README length score, 40 points maximum: zero when no README is
present, otherwise `min(40, word_count / min_words * 40)`. -/
def readmeScoreOf (min_words : Nat) (has_readme : Bool) (wc : Nat) : ℚ :=
  if has_readme then min 40 (((wc : ℚ) / (min_words : ℚ)) * 40) else 0

/-- README issue and suggestion lists.  The transliteration keeps the
source's dead branch: the `No README file found` pair sits inside the
`if has_readme:` block guarded again by `if not has_readme:`, so it
can never be produced. -/
def readmeIssuesOf (min_words : Nat) (has_readme : Bool) (wc : Nat) :
    List String × List String :=
  if has_readme then
    (if !has_readme then
      (["No README file found"],
       ["Add a README.md file with basic project information"])
     else if wc < min_words then
      (["README is too short (" ++ toString wc ++ " words)"],
       ["Expand README to at least " ++ toString min_words ++ " words"])
     else ([], []))
  else ([], [])

/-- Docs-folder score: 20 points when any recognised folder is present. -/
def folderScoreOf (docs_folders : List String) : ℚ :=
  if !docs_folders.isEmpty then 20 else 0

/-- Comment-ratio score: `min(20, ratio / min_ratio * 20)`. -/
def commentScoreOf (min_ratio ratio : ℚ) : ℚ :=
  min 20 ((ratio / min_ratio) * 20)

/-- README section-coverage score before the bonus:
`min(20, found / taxonomy_size * 20)`. -/
def sectionScoreOf (readme_sections : List String) : ℚ :=
  min 20 (((readme_sections.length : ℚ) / (SECTION_GROUPS.length : ℚ)) * 20)

/-- Markdown-files breakdown entry, present only when markdown scoring
is enabled: `min(weight, count / min_files * weight)`. -/
def markdownEntryOf (ms : MarkdownScoring) (md : MarkdownInventory) : Option ℚ :=
  if ms.enabled then
    some (min ms.weight (((md.count : ℚ) / (ms.min_files : ℚ)) * ms.weight))
  else none

/-- Bonus added to the `readme_sections` entry after its own cap: up to
five points, one per canonical section found in other markdown files
but not in the README; applied only inside the markdown-scoring block,
so a disabled markdown config also disables the bonus. -/
def bonusOf (ms : MarkdownScoring) (md : MarkdownInventory)
    (readme_sections : List String) : ℚ :=
  if ms.enabled then
    if !md.sections_found.isEmpty then
      (if !(distinctList (md.sections_found.filter (fun s => !readme_sections.contains s))).isEmpty then
        min 5 (((distinctList (md.sections_found.filter (fun s => !readme_sections.contains s))).length : ℚ))
       else 0)
    else 0
  else 0

def breakdownOf (cfg : DocFilterConfig) (has_readme : Bool)
    (readme_word_count : Nat) (readme_sections : List String)
    (docs_folders : List String) (comment_ratio : ℚ)
    (markdown_stats : MarkdownInventory) : ScoringBreakdown :=
  { readme := readmeScoreOf cfg.min_readme_words has_readme readme_word_count,
    docs_folder := folderScoreOf docs_folders,
    code_comments := commentScoreOf cfg.min_code_comment_ratio comment_ratio,
    readme_sections := sectionScoreOf readme_sections +
      bonusOf cfg.markdown_scoring markdown_stats readme_sections,
    markdown_files := markdownEntryOf cfg.markdown_scoring markdown_stats }

/-- Success path of the quality scorer, transliterated from lines
282-405 of `api_client.py`.  The final score is the rounded sum of the
breakdown entries (the bonus having already been folded into the
`readme_sections` entry); the assessment thresholds compare the
unrounded sum. -/
def scoreDocumentationOk (cfg : DocFilterConfig) (has_readme : Bool)
    (readme_word_count : Nat) (readme_sections : List String)
    (docs_folders : List String) (comment_ratio : ℚ)
    (markdown_stats : MarkdownInventory) : DocQuality :=
  { score := pyRound (sumBreakdown (breakdownOf cfg has_readme readme_word_count
      readme_sections docs_folders comment_ratio markdown_stats)),
    assessment :=
      if 90 ≤ sumBreakdown (breakdownOf cfg has_readme readme_word_count
          readme_sections docs_folders comment_ratio markdown_stats) then
        "Excellent documentation"
      else if 75 ≤ sumBreakdown (breakdownOf cfg has_readme readme_word_count
          readme_sections docs_folders comment_ratio markdown_stats) then
        "Good documentation"
      else if 50 ≤ sumBreakdown (breakdownOf cfg has_readme readme_word_count
          readme_sections docs_folders comment_ratio markdown_stats) then
        "Fair documentation"
      else "Needs improvement",
    issues := (readmeIssuesOf cfg.min_readme_words has_readme readme_word_count).1 ++
      (if docs_folders.isEmpty then ["No documentation folder found"] else []) ++
      (if comment_ratio < cfg.min_code_comment_ratio then
        ["Low code comment ratio (" ++ fmtDec1 comment_ratio ++ "%)"]
       else []),
    suggestions := (readmeIssuesOf cfg.min_readme_words has_readme readme_word_count).2 ++
      (if docs_folders.isEmpty then ["Add a docs/ folder with detailed documentation"] else []) ++
      (if comment_ratio < cfg.min_code_comment_ratio then
        ["Add more code comments to reach " ++ fmtDec1 cfg.min_code_comment_ratio ++ "% coverage"]
       else []) ++
      (if !(allSectionTitles.filter (fun t => !readme_sections.contains t)).isEmpty then
        ["Consider adding these important sections: " ++
          joinCommaSpace (allSectionTitles.filter (fun t => !readme_sections.contains t))]
       else []),
    breakdown := some (breakdownOf cfg has_readme readme_word_count
      readme_sections docs_folders comment_ratio markdown_stats) }

/-- The scorer as a fallible computation: the three divisions the
Python code performs on config-supplied denominators raise
`ZeroDivisionError` when the denominator is zero (README length
division only when a README is present, markdown-files division only
when markdown scoring is enabled); these exception points are hoisted
into explicit guards, after which the success path is pure. -/
def scoreDocumentation (cfg : DocFilterConfig) (has_readme : Bool)
    (readme_word_count : Nat) (readme_sections : List String)
    (docs_folders : List String) (comment_ratio : ℚ)
    (markdown_stats : MarkdownInventory) : Except Unit DocQuality :=
  if has_readme = true ∧ cfg.min_readme_words = 0 then Except.error ()
  else if cfg.min_code_comment_ratio = 0 then Except.error ()
  else if cfg.markdown_scoring.enabled = true ∧ cfg.markdown_scoring.min_files = 0 then Except.error ()
  else Except.ok (scoreDocumentationOk cfg has_readme readme_word_count readme_sections
    docs_folders comment_ratio markdown_stats)

/-! Documentation-stats pipeline, model of
`_get_repo_documentation_stats` as a whole.  The external requests are
supplied through an environment record; requests whose Python code
calls `raise_for_status` (or decodes unconditionally) are modelled as
`Except` values, and the README request keeps its non-raising non-200
case as `none`. -/

structure ContentsItem where
  name : String
  typ : String
deriving DecidableEq

structure PipelineEnv where
  readme : Except Unit (Option String)
  contents : Except Unit (List ContentsItem)
  languages : Except Unit (List (String × Nat))
  repoInfo : Except Unit String
  codeTree : Except Unit (List TreeEntry)
  codeFetch : String → FetchResult
  mdTree : Except Unit (List TreeEntry)
  mdFetch : String → FetchResult

structure DocStats where
  has_readme : Bool
  readme_word_count : Nat
  readme_sections : List String
  docs_folders : List String
  all_folders : List String
  code_comment_ratio : ℚ
  markdown_files : MarkdownInventory
  quality_summary : DocQuality
deriving DecidableEq

/-- Python `max(languages.items(), key=...)`: raises on an empty
mapping, keeps the earliest item among ties. -/
def maxByBytes : List (String × Nat) → Except Unit String
  | [] => Except.error ()
  | x :: xs => Except.ok (xs.foldl (fun best p => if best.2 < p.2 then p else best) x).1

def docStatsPipeline (cfg : DocFilterConfig) (env : PipelineEnv) : Except Unit DocStats := do
  let readmeOpt ← env.readme
  let has_readme := readmeOpt.isSome
  let readme_word_count := match readmeOpt with | some c => countWords c | none => 0
  let readme_sections :=
    match readmeOpt with
    | some c => categorizeSections (parseMarkdownHeaders c)
    | none => []
  let items ← env.contents
  let all_folders := (items.filter (fun i => i.typ == "dir")).map (fun i => i.name)
  let docs_folders := all_folders.filter (fun n => cfg.docs_folder_patterns.contains (strLower n))
  let langs ← env.languages
  let main_language ← maxByBytes langs
  let comment_ratio := calculateCommentRatio main_language env.repoInfo env.codeTree env.codeFetch
  let _default_branch ← env.repoInfo
  let markdown_stats := scanMarkdownFiles env.mdTree env.mdFetch
  let quality ← scoreDocumentation cfg has_readme readme_word_count readme_sections
    docs_folders comment_ratio markdown_stats
  pure { has_readme := has_readme, readme_word_count := readme_word_count,
         readme_sections := readme_sections, docs_folders := docs_folders,
         all_folders := all_folders, code_comment_ratio := comment_ratio,
         markdown_files := markdown_stats, quality_summary := quality }

/-- The fixed degraded record produced by the catch-all handler. -/
def degradedDocStats : DocStats :=
  { has_readme := false, readme_word_count := 0, readme_sections := [],
    docs_folders := [], all_folders := [], code_comment_ratio := 0,
    markdown_files := { count := 0, total_words := 0, sections_found := [] },
    quality_summary :=
      { score := 0, assessment := "Unable to analyze",
        issues := ["Failed to analyze documentation"],
        suggestions := ["Retry analysis or check repository accessibility"],
        breakdown := none } }

/-- Model of `_get_repo_documentation_stats`: the whole pipeline runs
inside one try/except whose handler returns the degraded record. -/
def getRepoDocumentationStats (cfg : DocFilterConfig) (env : PipelineEnv) : DocStats :=
  match docStatsPipeline cfg env with
  | Except.ok r => r
  | Except.error _ => degradedDocStats

/-! Inclusion filter, model of `_should_include_repo` from
`scraper.py` (with the documentation filter enabled; the early return
for a disabled filter is kept). -/

def shouldIncludeRepo (cfg : DocFilterConfig) (stats : DocStats) : Bool :=
  if !cfg.enabled then true
  else if !cfg.score_threshold.enabled then
    if !stats.has_readme then true
    else if stats.readme_word_count < cfg.min_readme_words then true
    else if cfg.require_docs_folder && stats.docs_folders.isEmpty then true
    else if stats.code_comment_ratio < cfg.min_code_comment_ratio then true
    else true
  else
    let score := stats.quality_summary.score
    match cfg.score_threshold.min, cfg.score_threshold.max with
    | some mn, some mx => if ¬(mn ≤ score ∧ score ≤ mx) then false else true
    | some mn, none => if score < mn then false else true
    | none, some mx => if mx < score then false else true
    | none, none => true

/-- The four basic flag-mode criteria, as the specification states
them: README present, README at least the minimum word count, a
recognised docs folder when one is required, and comment ratio at
least the minimum. -/
def meetsBasicCriteria (cfg : DocFilterConfig) (stats : DocStats) : Bool :=
  stats.has_readme && !(stats.readme_word_count < cfg.min_readme_words) &&
  (!cfg.require_docs_folder || !stats.docs_folders.isEmpty) &&
  !(stats.code_comment_ratio < cfg.min_code_comment_ratio)

/-! Projections used to state concrete evaluations of the scorer. -/

def okScore (r : Except Unit DocQuality) : ℤ :=
  match r with
  | Except.ok q => q.score
  | Except.error _ => -1

def okAssessment (r : Except Unit DocQuality) : String :=
  match r with
  | Except.ok q => q.assessment
  | Except.error _ => "error"

def okIssues (r : Except Unit DocQuality) : List String :=
  match r with
  | Except.ok q => q.issues
  | Except.error _ => []

def fatalFetch (r : FetchResult) : Bool :=
  match r with
  | FetchResult.badBody => true
  | FetchResult.netError => true
  | _ => false

/-! Concrete configurations, statistics and environments used by the
claim-level evaluations and witnesses below. -/

def flagModeConfig : DocFilterConfig :=
  { enabled := true, min_readme_words := 200, min_code_comment_ratio := 5,
    require_docs_folder := true,
    docs_folder_patterns := ["docs", "documentation", "doc", "wiki"],
    score_threshold := { enabled := false, min := none, max := none },
    markdown_scoring := { enabled := false, weight := 10, min_files := 2 } }

def mdModeConfig : DocFilterConfig :=
  { flagModeConfig with
    markdown_scoring := { enabled := true, weight := 10, min_files := 2 } }

def emptyInventory : MarkdownInventory :=
  { count := 0, total_words := 0, sections_found := [] }

def goodDocStats : DocStats :=
  { has_readme := true, readme_word_count := 250,
    readme_sections := ["Setup/Installation"], docs_folders := ["docs"],
    all_folders := ["docs", "src"], code_comment_ratio := 6,
    markdown_files := { count := 1, total_words := 50, sections_found := [] },
    quality_summary :=
      { score := 60, assessment := "Fair documentation",
        issues := [], suggestions := [], breakdown := none } }

def poorDocStats : DocStats :=
  { has_readme := false, readme_word_count := 0, readme_sections := [],
    docs_folders := [], all_folders := [], code_comment_ratio := 0,
    markdown_files := emptyInventory,
    quality_summary :=
      { score := 0, assessment := "Needs improvement",
        issues := [], suggestions := [], breakdown := none } }

def c3Inventory : MarkdownInventory :=
  { count := 4, total_words := 100, sections_found := [] }

def c3WitnessQuality : DocQuality :=
  scoreDocumentationOk mdModeConfig true 400 allSectionTitles ["docs"] 10 c3Inventory

def c4WitnessQuality : DocQuality :=
  scoreDocumentationOk flagModeConfig true 400 allSectionTitles ["docs"] (200 / 81) emptyInventory

def pythonSampleTree : List TreeEntry :=
  [{ path := "a.py", typ := "blob", url := "u1" },
   { path := "b.py", typ := "blob", url := "u2" }]

def pythonSampleFetch : String → FetchResult := fun u =>
  if u == "u1" then
    FetchResult.success (tripleSingleQuote ++ "\n" ++ tripleSingleQuote ++ "\nx = 1")
  else FetchResult.success "y = 2"

def rustTree : List TreeEntry := [{ path := "m.rs", typ := "blob", url := "u1" }]

def rustFetch : String → FetchResult := fun _ => FetchResult.success "// fallback comment"

def mdScanTree : List TreeEntry :=
  [{ path := "README.md", typ := "blob", url := "u1" },
   { path := "docs/a.md", typ := "blob", url := "u2" }]

def mdScanFetch : String → FetchResult := fun u =>
  if u == "u1" then FetchResult.success "hello world" else FetchResult.badBody

def mdSkipTree : List TreeEntry :=
  [{ path := "README.md", typ := "blob", url := "u1" },
   { path := "NOTES.md", typ := "blob", url := "u2" },
   { path := "main.py", typ := "blob", url := "u3" }]

def mdSkipFetch : String → FetchResult := fun u =>
  if u == "u1" then FetchResult.success "a b"
  else if u == "u2" then FetchResult.status 404
  else FetchResult.netError

def failEnv : PipelineEnv :=
  { readme := Except.error (), contents := Except.ok [],
    languages := Except.ok [("Python", 100)], repoInfo := Except.ok "main",
    codeTree := Except.ok [], codeFetch := fun _ => FetchResult.netError,
    mdTree := Except.ok [], mdFetch := fun _ => FetchResult.netError }

/-! General-purpose helper lemmas. -/

theorem except_bind_ok {α β : Type} (a : α) (f : α → Except Unit β) :
    (Except.ok a >>= f) = f a := rfl

theorem except_bind_err {α β : Type} (f : α → Except Unit β) :
    ((Except.error () : Except Unit α) >>= f) = Except.error () := rfl

theorem pyRound_nonneg {q : ℚ} (h : 0 ≤ q) : 0 ≤ pyRound q := by
  have hf : (0 : ℤ) ≤ ⌊q⌋ := by
    rw [Int.le_floor]; exact_mod_cast h
  unfold pyRound
  split_ifs <;> omega

theorem sumBreakdown_breakdownOf_nonneg (cfg : DocFilterConfig) (hr : Bool)
    (wc : Nat) (secs docs : List String) (ratio : ℚ) (md : MarkdownInventory)
    (hratio : 0 ≤ ratio) (hminr : 0 ≤ cfg.min_code_comment_ratio)
    (hw : 0 ≤ cfg.markdown_scoring.weight) :
    0 ≤ sumBreakdown (breakdownOf cfg hr wc secs docs ratio md) := by
  unfold sumBreakdown breakdownOf
  refine add_nonneg (add_nonneg (add_nonneg (add_nonneg ?_ ?_) ?_) ?_) ?_
  · unfold readmeScoreOf
    split
    · exact le_min (by norm_num)
        (mul_nonneg (div_nonneg (Nat.cast_nonneg _) (Nat.cast_nonneg _)) (by norm_num))
    · exact le_refl 0
  · unfold folderScoreOf
    split <;> norm_num
  · unfold commentScoreOf
    exact le_min (by norm_num) (mul_nonneg (div_nonneg hratio hminr) (by norm_num))
  · refine add_nonneg ?_ ?_
    · unfold sectionScoreOf
      exact le_min (by norm_num)
        (mul_nonneg (div_nonneg (Nat.cast_nonneg _) (Nat.cast_nonneg _)) (by norm_num))
    · unfold bonusOf
      split_ifs <;> first
        | exact le_refl 0
        | exact le_min (by norm_num) (Nat.cast_nonneg _)
  · unfold markdownEntryOf
    split
    · simp only [Option.getD_some]
      exact le_min hw
        (mul_nonneg (div_nonneg (Nat.cast_nonneg _) (Nat.cast_nonneg _)) hw)
    · simp [Option.getD]

theorem mdFold_fatal (fetch : String → FetchResult) :
    ∀ (files : List TreeEntry) (acc : Nat × List String),
      (∃ f ∈ files, fatalFetch (fetch f.url) = true) →
      files.foldlM (mdStep fetch) acc = Except.error () := by
  intro files
  induction files with
  | nil => rintro acc ⟨f, hf, _⟩; cases hf
  | cons head tail ih =>
    rintro acc ⟨f, hf, hfat⟩
    rw [List.foldlM_cons]
    rcases List.mem_cons.mp hf with rfl | hmem
    · cases hfr : fetch f.url
      case success c => simp [fatalFetch, hfr] at hfat
      case status code => simp [fatalFetch, hfr] at hfat
      case badBody =>
        rw [show mdStep fetch acc f = Except.error () from by simp [mdStep, hfr]]
        rfl
      case netError =>
        rw [show mdStep fetch acc f = Except.error () from by simp [mdStep, hfr]]
        rfl
    · cases hfr : fetch head.url
      case success c =>
        rw [show mdStep fetch acc head = Except.ok (acc.1 + countWords c,
          listUnion acc.2 (categorizeSections (parseMarkdownHeaders c))) from by
            simp [mdStep, hfr]]
        rw [except_bind_ok]
        exact ih _ ⟨f, hmem, hfat⟩
      case status code =>
        rw [show mdStep fetch acc head = Except.ok acc from by simp [mdStep, hfr]]
        rw [except_bind_ok]
        exact ih _ ⟨f, hmem, hfat⟩
      case badBody =>
        rw [show mdStep fetch acc head = Except.error () from by simp [mdStep, hfr]]
        rfl
      case netError =>
        rw [show mdStep fetch acc head = Except.error () from by simp [mdStep, hfr]]
        rfl

theorem mdFold_ok (fetch : String → FetchResult) :
    ∀ (files : List TreeEntry) (acc : Nat × List String),
      (∀ f ∈ files, fatalFetch (fetch f.url) = false) →
      files.foldlM (mdStep fetch) acc = Except.ok (mdAccum fetch files acc) := by
  intro files
  induction files with
  | nil => intro acc _; rfl
  | cons head tail ih =>
    intro acc hall
    rw [List.foldlM_cons]
    cases hfr : fetch head.url
    case success c =>
      rw [show mdStep fetch acc head = Except.ok (acc.1 + countWords c,
        listUnion acc.2 (categorizeSections (parseMarkdownHeaders c))) from by
          simp [mdStep, hfr]]
      rw [except_bind_ok, ih _ (fun f hf => hall f (List.mem_cons_of_mem _ hf))]
      simp [mdAccum, hfr]
    case status code =>
      rw [show mdStep fetch acc head = Except.ok acc from by simp [mdStep, hfr]]
      rw [except_bind_ok, ih _ (fun f hf => hall f (List.mem_cons_of_mem _ hf))]
      simp [mdAccum, hfr]
    case badBody =>
      have := hall head (List.mem_cons_self _ _)
      simp [fatalFetch, hfr] at this
    case netError =>
      have := hall head (List.mem_cons_self _ _)
      simp [fatalFetch, hfr] at this

/-! Claim-level theorems. -/

/-- Claim C1, counterexample: with the documentation filter enabled
and the score threshold disabled (flag mode), a repository meeting all
four basic criteria is still included — `_should_include_repo` returns
`true`, the value the caller treats as inclusion, not a value
indicating exclusion as the claim states. -/
theorem c1_flag_mode_counterexample :
    flagModeConfig.enabled = true ∧
    flagModeConfig.score_threshold.enabled = false ∧
    meetsBasicCriteria flagModeConfig goodDocStats = true ∧
    shouldIncludeRepo flagModeConfig goodDocStats = true := by decide

/-- Claim C1, amended: in flag mode `_should_include_repo` returns the
inclusion value `true` both for repositories meeting all four basic
criteria and for repositories failing at least one of them; flag mode
never signals exclusion. -/
theorem c1_flag_mode_amended (cfg : DocFilterConfig) (stats : DocStats)
    (he : cfg.enabled = true) (hs : cfg.score_threshold.enabled = false) :
    (meetsBasicCriteria cfg stats = true → shouldIncludeRepo cfg stats = true) ∧
    (meetsBasicCriteria cfg stats = false → shouldIncludeRepo cfg stats = true) := by
  have h : shouldIncludeRepo cfg stats = true := by
    unfold shouldIncludeRepo
    rw [he, hs]
    simp
  exact ⟨fun _ => h, fun _ => h⟩

/-- Claim C1, witness: the amended theorem applied to a concrete
flag-mode configuration and a repository meeting all four criteria. -/
theorem c1_flag_mode_witness :
    meetsBasicCriteria flagModeConfig goodDocStats = true ∧
    shouldIncludeRepo flagModeConfig goodDocStats = true :=
  ⟨by decide, (c1_flag_mode_amended flagModeConfig goodDocStats rfl rfl).1 (by decide)⟩

/-- Claim C2, evaluation at the failing input: with no README, all
other inputs zero and markdown scoring disabled, the scorer yields
total score 0 and assessment `Needs improvement` as the claim states,
but the issues list is `[No documentation folder found, Low code
comment ratio (0.0%)]` and in particular does not contain
`No README file found` — that append sits inside the `if has_readme:`
block and is unreachable. -/
theorem c2_no_readme_eval :
    okScore (scoreDocumentation flagModeConfig false 0 [] [] 0 emptyInventory) = 0 ∧
    okAssessment (scoreDocumentation flagModeConfig false 0 [] [] 0 emptyInventory) =
      "Needs improvement" ∧
    (okIssues (scoreDocumentation flagModeConfig false 0 [] [] 0 emptyInventory)).contains
      "No README file found" = false ∧
    okIssues (scoreDocumentation flagModeConfig false 0 [] [] 0 emptyInventory) =
      ["No documentation folder found", "Low code comment ratio (0.0%)"] := by decide

/-- Claim C3, counterexample: a repository maxing every category with
the default markdown weight receives total score 110, outside the
claimed 0 to 100 range (there is no final clamp). -/
theorem c3_score_range_counterexample :
    okScore (scoreDocumentation mdModeConfig true 400 allSectionTitles ["docs"] 10 c3Inventory) = 110 ∧
    100 < okScore (scoreDocumentation mdModeConfig true 400 allSectionTitles ["docs"] 10 c3Inventory) := by
  decide

/-- Claim C3, amended: for every successful evaluation the score is a
nonnegative integer equal to the sum of all per-category breakdown
scores (the `readme_sections` bonus included) rounded half to even; it
is not clamped to 100 and can exceed it. -/
theorem c3_score_sum_amended (cfg : DocFilterConfig) (hr : Bool) (wc : Nat)
    (secs docs : List String) (ratio : ℚ) (md : MarkdownInventory) (q : DocQuality)
    (hok : scoreDocumentation cfg hr wc secs docs ratio md = Except.ok q)
    (hratio : 0 ≤ ratio) (hminr : 0 ≤ cfg.min_code_comment_ratio)
    (hw : 0 ≤ cfg.markdown_scoring.weight) :
    ∃ b, q.breakdown = some b ∧ q.score = pyRound (sumBreakdown b) ∧ 0 ≤ q.score := by
  unfold scoreDocumentation at hok
  split_ifs at hok
  injection hok with hq
  subst hq
  exact ⟨_, rfl, rfl,
    pyRound_nonneg (sumBreakdown_breakdownOf_nonneg cfg hr wc secs docs ratio md
      hratio hminr hw)⟩

/-- Claim C3, witness: the amended theorem applied to the concrete
110-point evaluation. -/
theorem c3_score_sum_witness :
    ∃ b, c3WitnessQuality.breakdown = some b ∧
      c3WitnessQuality.score = pyRound (sumBreakdown b) ∧ 0 ≤ c3WitnessQuality.score :=
  c3_score_sum_amended mdModeConfig true 400 allSectionTitles ["docs"] 10 c3Inventory
    c3WitnessQuality (by decide) (by decide) (by decide) (by decide)

/-- Claim C4, counterexample: an evaluation whose unrounded total is
7280/81 (about 89.88) rounds to a stored score of 90 yet is assessed
`Good documentation`, so the assessment is not determined by the
rounded score field. -/
theorem c4_assessment_counterexample :
    okScore (scoreDocumentation flagModeConfig true 400 allSectionTitles ["docs"]
      (200 / 81) emptyInventory) = 90 ∧
    okAssessment (scoreDocumentation flagModeConfig true 400 allSectionTitles ["docs"]
      (200 / 81) emptyInventory) = "Good documentation" := by decide

/-- Claim C4, amended: for every successful evaluation the assessment
is determined by the unrounded sum of the breakdown scores — at least
90 gives Excellent, at least 75 Good, at least 50 Fair, otherwise
Needs improvement — which can disagree with the rounded score field
when the sum falls within half a point below a threshold. -/
theorem c4_assessment_amended (cfg : DocFilterConfig) (hr : Bool) (wc : Nat)
    (secs docs : List String) (ratio : ℚ) (md : MarkdownInventory) (q : DocQuality)
    (hok : scoreDocumentation cfg hr wc secs docs ratio md = Except.ok q) :
    ∃ b, q.breakdown = some b ∧
      q.assessment =
        (if 90 ≤ sumBreakdown b then "Excellent documentation"
         else if 75 ≤ sumBreakdown b then "Good documentation"
         else if 50 ≤ sumBreakdown b then "Fair documentation"
         else "Needs improvement") := by
  unfold scoreDocumentation at hok
  split_ifs at hok
  injection hok with hq
  subst hq
  exact ⟨_, rfl, rfl⟩

/-- Claim C4, witness: the amended theorem applied to the concrete
evaluation with unrounded total 7280/81. -/
theorem c4_assessment_witness :
    ∃ b, c4WitnessQuality.breakdown = some b ∧
      c4WitnessQuality.assessment =
        (if 90 ≤ sumBreakdown b then "Excellent documentation"
         else if 75 ≤ sumBreakdown b then "Good documentation"
         else if 50 ≤ sumBreakdown b then "Fair documentation"
         else "Needs improvement") :=
  c4_assessment_amended flagModeConfig true 400 allSectionTitles ["docs"] (200 / 81)
    emptyInventory c4WitnessQuality (by decide)

/-- Claim C5, evaluation at the failing input: under the Python
profile a line consisting solely of the triple-quote marker inside an
open multi-line state leaves the state open (the close branch is
unreachable for triple quotes), and the state carries into the next
sampled file, so the two-file Python sample whose first file is a
triple-quote pair followed by code is classified as 100 percent
comments instead of the 50 percent the claimed per-file, closing
semantics would give. -/
theorem c5_multiline_state_eval :
    calculateCommentRatio "Python" (Except.ok "main") (Except.ok pythonSampleTree)
      pythonSampleFetch = 100 ∧
    multiLineScan tripleSingleQuote [tripleSingleQuote, tripleDoubleQuote] true =
      (true, false) := by decide

/-- Claim C6, counterexample: for the dominant language Rust, which
has no comment-syntax profile, the estimator returns 0 without
sampling, even though the generic fallback profile recognises the
sampled file's line as a comment; the fallback is never consulted. -/
theorem c6_fallback_counterexample :
    calculateCommentRatio "Rust" (Except.ok "main") (Except.ok rustTree) rustFetch = 0 ∧
    (processLine genericPatterns false "// fallback comment").2 = true := by decide

/-- Claim C6, amended: a dominant language absent from the extension
table makes the estimator return 0 before any sampling, and the
extension table covers exactly the languages that have a specific
comment-syntax profile, so the generic fallback profile is
unreachable and unknown languages always score 0. -/
theorem c6_fallback_amended :
    (∀ (language : String) (repoInfo : Except Unit String)
       (tree : Except Unit (List TreeEntry)) (fetch : String → FetchResult),
       file_extensions.find? (fun e => e.1 == language) = none →
       calculateCommentRatio language repoInfo tree fetch = 0) ∧
    file_extensions.map Prod.fst = comment_patterns.map Prod.fst := by
  constructor
  · intro language repoInfo tree fetch h
    cases repoInfo with
    | error e => simp [calculateCommentRatio]
    | ok b =>
      cases tree with
      | error e => simp [calculateCommentRatio]
      | ok entries => simp [calculateCommentRatio, calculateCommentRatioBody, h]
  · rfl

/-- Claim C6, witness: the amended theorem applied to the unknown
language Rust with an empty environment. -/
theorem c6_fallback_witness :
    calculateCommentRatio "Rust" (Except.ok "branch") (Except.ok [])
      (fun _ => FetchResult.netError) = 0 :=
  c6_fallback_amended.1 "Rust" (Except.ok "branch") (Except.ok [])
    (fun _ => FetchResult.netError) (by decide)

/-- Claim C7, counterexample: a decode failure on the second markdown
file does not merely skip that file — the whole scan collapses to the
empty inventory, losing the first file's two words, which are counted
when the failing file is absent. -/
theorem c7_scan_counterexample :
    scanMarkdownFiles (Except.ok mdScanTree) mdScanFetch =
      { count := 0, total_words := 0, sections_found := [] } ∧
    scanMarkdownFiles (Except.ok [{ path := "README.md", typ := "blob", url := "u1" }])
      mdScanFetch = { count := 1, total_words := 2, sections_found := [] } := by decide

/-- Claim C7, amended: only a fetch returning a non-success status
skips just that file; a raised fetch exception or a decode failure on
any markdown file, like a failure of the surrounding tree fetch,
yields the empty inventory, while a scan with no such fatal outcome
returns the full accumulation (the count covering every markdown file,
skipped ones included). -/
theorem c7_scan_amended :
    (∀ fetch : String → FetchResult,
       scanMarkdownFiles (Except.error ()) fetch =
         { count := 0, total_words := 0, sections_found := [] }) ∧
    (∀ (entries : List TreeEntry) (fetch : String → FetchResult),
       (∃ f ∈ markdownFilesOf entries, fatalFetch (fetch f.url) = true) →
       scanMarkdownFiles (Except.ok entries) fetch =
         { count := 0, total_words := 0, sections_found := [] }) ∧
    (∀ (entries : List TreeEntry) (fetch : String → FetchResult),
       (∀ f ∈ markdownFilesOf entries, fatalFetch (fetch f.url) = false) →
       scanMarkdownFiles (Except.ok entries) fetch =
         { count := (markdownFilesOf entries).length,
           total_words := (mdAccum fetch (markdownFilesOf entries) (0, [])).1,
           sections_found := (mdAccum fetch (markdownFilesOf entries) (0, [])).2 }) := by
  refine ⟨fun _ => rfl, ?_, ?_⟩
  · intro entries fetch hex
    simp only [scanMarkdownFiles]
    rw [mdFold_fatal fetch (markdownFilesOf entries) _ hex]
  · intro entries fetch hall
    simp only [scanMarkdownFiles]
    rw [mdFold_ok fetch (markdownFilesOf entries) _ hall]

/-- Claim C7, witness: the amended theorem's success case applied to a
tree whose second markdown file returns a non-200 status — that file
alone is skipped while the count still includes it. -/
theorem c7_scan_witness :
    scanMarkdownFiles (Except.ok mdSkipTree) mdSkipFetch =
      { count := 2, total_words := 2, sections_found := [] } := by
  rw [c7_scan_amended.2.2 mdSkipTree mdSkipFetch (by decide)]
  decide

/-- Claim C8: whenever any step of the documentation-stats pipeline
fails, `_get_repo_documentation_stats` returns (rather than raises)
the degraded zero-value record — no README, zero counts and ratios,
empty lists, and a quality summary with score 0, exactly one issue
`Failed to analyze documentation` and exactly one retry suggestion. -/
theorem c8_degraded_on_failure (cfg : DocFilterConfig) (env : PipelineEnv)
    (h : docStatsPipeline cfg env = Except.error ()) :
    getRepoDocumentationStats cfg env =
      { has_readme := false, readme_word_count := 0, readme_sections := [],
        docs_folders := [], all_folders := [], code_comment_ratio := 0,
        markdown_files := { count := 0, total_words := 0, sections_found := [] },
        quality_summary :=
          { score := 0, assessment := "Unable to analyze",
            issues := ["Failed to analyze documentation"],
            suggestions := ["Retry analysis or check repository accessibility"],
            breakdown := none } } := by
  unfold getRepoDocumentationStats
  rw [h]
  rfl

/-- Claim C8, witness: the theorem applied to an environment whose
README request raises. -/
theorem c8_degraded_witness :
    getRepoDocumentationStats flagModeConfig failEnv =
      { has_readme := false, readme_word_count := 0, readme_sections := [],
        docs_folders := [], all_folders := [], code_comment_ratio := 0,
        markdown_files := { count := 0, total_words := 0, sections_found := [] },
        quality_summary :=
          { score := 0, assessment := "Unable to analyze",
            issues := ["Failed to analyze documentation"],
            suggestions := ["Retry analysis or check repository accessibility"],
            breakdown := none } } :=
  c8_degraded_on_failure flagModeConfig failEnv (by decide)

/-- Claim C9: classifying a single already-lower-cased header returns
exactly the title of the first taxonomy entry (in the fixed
`SECTION_GROUPS` iteration order) whose synonym set contains the
header verbatim, and the empty list when no synonym set contains
it. -/
theorem c9_classify_single (h : String) (hl : strLower h = h) :
    ((∃ g ∈ SECTION_GROUPS, g.synonyms.contains h = true) →
      ∃ g, SECTION_GROUPS.find? (fun g => g.synonyms.contains h) = some g ∧
        categorizeSections [h] = [g.title]) ∧
    ((∀ g ∈ SECTION_GROUPS, g.synonyms.contains h = false) →
      categorizeSections [h] = []) := by
  have hcat : categorizeSections [h] =
      (match SECTION_GROUPS.find? (fun g => g.synonyms.contains h) with
       | some g => [g.title]
       | none => []) := by
    unfold categorizeSections
    rw [List.foldl_cons, List.foldl_nil]
    simp only [hl]
    cases SECTION_GROUPS.find? (fun g => g.synonyms.contains h) <;> simp
  constructor
  · intro hex
    have hsome : (SECTION_GROUPS.find? (fun g => g.synonyms.contains h)).isSome := by
      rw [List.find?_isSome]
      simpa using hex
    obtain ⟨g, hg⟩ := Option.isSome_iff_exists.mp hsome
    refine ⟨g, hg, ?_⟩
    rw [hcat, hg]
  · intro hall
    have hnone : SECTION_GROUPS.find? (fun g => g.synonyms.contains h) = none := by
      rw [List.find?_eq_none]
      intro x hx
      simpa using hall x hx
    rw [hcat, hnone]

/-- Claim C9, witness: the theorem applied to the overlapping synonym
`overview`, which the earlier About entry wins over Features. -/
theorem c9_classify_witness :
    (∃ g, SECTION_GROUPS.find? (fun g => g.synonyms.contains "overview") = some g ∧
      categorizeSections ["overview"] = [g.title]) ∧
    categorizeSections ["overview"] = ["About"] :=
  ⟨(c9_classify_single "overview" (by decide)).1 (by decide), by decide⟩

/-- Claim C10: with the documentation filter enabled and the score
threshold disabled, `_should_include_repo` returns `true` for every
possible documentation-stats record — every flag-mode branch and the
final fall-through return `true`, so flag mode never excludes a
repository. -/
theorem c10_flag_mode_always_includes (cfg : DocFilterConfig) (stats : DocStats)
    (he : cfg.enabled = true) (hs : cfg.score_threshold.enabled = false) :
    shouldIncludeRepo cfg stats = true := by
  unfold shouldIncludeRepo
  rw [he, hs]
  simp

/-- Claim C10, witness: the theorem applied to a concrete flag-mode
configuration and a repository with no documentation at all. -/
theorem c10_flag_mode_witness :
    flagModeConfig.enabled = true ∧ flagModeConfig.score_threshold.enabled = false ∧
    shouldIncludeRepo flagModeConfig poorDocStats = true :=
  ⟨rfl, rfl, c10_flag_mode_always_includes flagModeConfig poorDocStats rfl rfl⟩
